import Mathlib

/-!
Verification of the arena simulation repository (bouncing_ball.py and the
futbol variants inside bouncingball2.py).

The Python code works on floating-point numbers; we embed it with exact
arithmetic: positions, velocities and angles are real numbers (the geometric
primitives use `Real.sqrt` for `math.hypot`), the rectangular-cage variant of
bouncing_ball.py uses only rational constants and is embedded over `ℚ`, and
the match clock uses natural-number frame counters.  A Python float division
raises `ZeroDivisionError` when the divisor is zero, so every embedded
operation that divides by a quantity the code does not guard returns an
`Option`, with `none` marking the raised exception.  Calls to `random.choice`
and `random.uniform` are modelled by reading successive values from an
unconstrained stream `rng : ℕ → ℝ`, threaded through a draw counter.
-/

open Classical

/-- A movable disk of the futbol variants: `Ball.__init__` stores position,
velocity and radius (colors and text are rendering-only and omitted). -/
structure Ball where
  x : ℝ
  y : ℝ
  vx : ℝ
  vy : ℝ
  radius : ℝ

/-- `math.hypot dx dy = sqrt (dx^2 + dy^2)`. -/
noncomputable def hypot (dx dy : ℝ) : ℝ := Real.sqrt (dx ^ 2 + dy ^ 2)

theorem hypot_nonneg (dx dy : ℝ) : 0 ≤ hypot dx dy := Real.sqrt_nonneg _

theorem hypot_axis (dx : ℝ) : hypot dx 0 = |dx| := by
  rw [hypot]
  rw [show dx ^ 2 + (0 : ℝ) ^ 2 = dx ^ 2 by ring, Real.sqrt_sq_eq_abs]

theorem hypot_smul (t dx dy : ℝ) : hypot (t * dx) (t * dy) = |t| * hypot dx dy := by
  rw [hypot, hypot, show (t * dx) ^ 2 + (t * dy) ^ 2 = t ^ 2 * (dx ^ 2 + dy ^ 2) by ring,
    Real.sqrt_mul (sq_nonneg t), Real.sqrt_sq_eq_abs]

theorem hypot_triangle (a b c d : ℝ) :
    hypot (a + c) (b + d) ≤ hypot a b + hypot c d := by
  have hab : (0 : ℝ) ≤ a ^ 2 + b ^ 2 := by positivity
  have hcd : (0 : ℝ) ≤ c ^ 2 + d ^ 2 := by positivity
  have hA := Real.sq_sqrt hab
  have hC := Real.sq_sqrt hcd
  have hAn := Real.sqrt_nonneg (a ^ 2 + b ^ 2)
  have hCn := Real.sqrt_nonneg (c ^ 2 + d ^ 2)
  have hcs : a * c + b * d ≤ Real.sqrt (a ^ 2 + b ^ 2) * Real.sqrt (c ^ 2 + d ^ 2) := by
    nlinarith [sq_nonneg (a * d - b * c), sq_nonneg (Real.sqrt (a ^ 2 + b ^ 2) * Real.sqrt (c ^ 2 + d ^ 2) - (a * c + b * d)), Real.sqrt_nonneg ((a ^ 2 + b ^ 2) * (c ^ 2 + d ^ 2)), Real.sqrt_mul_self hab, Real.sqrt_mul_self hcd, Real.sqrt_mul hab (c ^ 2 + d ^ 2), Real.sq_sqrt (mul_nonneg hab hcd), sq_nonneg (a*c + b*d)]
  have key : (a + c) ^ 2 + (b + d) ^ 2 ≤
      (Real.sqrt (a ^ 2 + b ^ 2) + Real.sqrt (c ^ 2 + d ^ 2)) ^ 2 := by
    nlinarith [hcs]
  calc hypot (a + c) (b + d)
      ≤ Real.sqrt ((Real.sqrt (a ^ 2 + b ^ 2) + Real.sqrt (c ^ 2 + d ^ 2)) ^ 2) :=
        Real.sqrt_le_sqrt key
    _ = hypot a b + hypot c d := by
        rw [Real.sqrt_sq (by positivity)]; rfl

theorem hypot_neg (dx dy : ℝ) : hypot (-dx) (-dy) = hypot dx dy := by
  rw [hypot, hypot]; ring_nf

/-! ## bouncing_ball.py : single ball in a rectangular cage

Constants from the source: `BALL_RADIUS = 25`, `GRAVITY = 0.5`,
`BOUNCE_FACTOR = 0.95`; the cage rectangle is `x ∈ [150, 650]`,
`y ∈ [100, 500]` (`CAGE_X = 150`, `CAGE_Y = 100`, width 500, height 400). -/

structure CageState where
  x : ℚ
  y : ℚ
  vx : ℚ
  vy : ℚ

/-- One iteration of the physics + cage-collision block of `bouncing_ball.py`
(lines 48-75): gravity, integrate, then the floor / ceiling / right / left
checks in source order. -/
def cageTick (s : CageState) : CageState :=
  let vy0 := s.vy + 0.5
  let x0 := s.x + s.vx
  let y0 := s.y + vy0
  let y1 := if 500 < y0 + 25 then 500 - 25 else y0
  let vy1 := if 500 < y0 + 25 then -vy0 * 0.95 else vy0
  let y2 := if y1 - 25 < 100 then 100 + 25 else y1
  let vy2 := if y1 - 25 < 100 then -vy1 * 0.95 else vy1
  let x1 := if 650 < x0 + 25 then 650 - 25 else x0
  let vx1 := if 650 < x0 + 25 then -s.vx * 0.95 else s.vx
  let x2 := if x1 - 25 < 150 then 150 + 25 else x1
  let vx2 := if x1 - 25 < 150 then -vx1 * 0.95 else vx1
  ⟨x2, y2, vx2, vy2⟩

/-- C10: after the four wall checks of one bouncing_ball.py tick complete, the
ball's center lies within `[cage.left + R, cage.right - R]` horizontally and
`[cage.top + R, cage.bottom - R]` vertically, i.e. `x ∈ [175, 625]` and
`y ∈ [125, 475]`, for every starting state: each violated bound is clamped
exactly to the boundary and the cage is wider and taller than the ball's
diameter, so no clamp re-violates the opposite bound. -/
theorem C10_cage_containment (s : CageState) :
    175 ≤ (cageTick s).x ∧ (cageTick s).x ≤ 625 ∧
    125 ≤ (cageTick s).y ∧ (cageTick s).y ≤ 475 := by
  unfold cageTick
  dsimp only
  split_ifs with h1 h2 h3 h4 h5 h6 h7 h8 <;>
    refine ⟨by linarith, by linarith, by linarith, by linarith⟩

/-! ## Body.move variants -/

/-- `Ball.move` of futbol 1.3 (and 1.4), with the module constants `GRAVITY`
and `FRICTION` taken as parameters: gravity is added to `vy`, then both
components are scaled by the friction factor, then the velocity is added to
the position. -/
def move13 (g f : ℝ) (b : Ball) : Ball :=
  let vy0 := b.vy + g
  let vx1 := b.vx * f
  let vy1 := vy0 * f
  { x := b.x + vx1, y := b.y + vy1, vx := vx1, vy := vy1, radius := b.radius }

/-- `Marble.move` of futbol 1.5: the position is updated with the incoming
velocity first, and the friction factor 0.995 is applied afterwards; there is
no gravity term. -/
def move15 (b : Ball) : Ball :=
  let x1 := b.x + b.vx
  let y1 := b.y + b.vy
  { x := x1, y := y1, vx := b.vx * 0.995, vy := b.vy * 0.995, radius := b.radius }

/-- `Ball.move` of futbol 1.1 / 1.2: plain position integration. -/
def move12 (b : Ball) : Ball :=
  { b with x := b.x + b.vx, y := b.y + b.vy }

/-- C8 counterexample: the claim's composition (gravity, then friction, then
position) predicts, for the friction factor 0.995 configured in futbol 1.5 and
any gravity value, a new `x` of `x + 0.995 * vx = 9.95` for a marble at
`x = 0` with `vx = 10`; `Marble.move` actually produces `x = 10`, because it
adds the pre-friction velocity to the position. -/
theorem C8_move_order_cex :
    (move15 ⟨0, 0, 10, 10, 35⟩).x = 10 ∧
    ((0 : ℝ) + 0.995 * 10 ≠ 10) := by
  constructor
  · simp [move15]
  · norm_num

/-- C8 (amended): futbol 1.3's `Ball.move` first adds gravity to `vy`, then
scales both velocity components by the friction factor, then adds the
resulting velocity to the position — so it equals the closed form below, and
zero gravity or friction factor 1 disable the respective effect with no
special-casing; futbol 1.5's `Marble.move` instead adds the pre-friction
velocity to the position, applies friction afterwards, and has no gravity
term. -/
theorem C8_move_order_amended :
    (∀ g f b, move13 g f b =
      ⟨b.x + b.vx * f, b.y + (b.vy + g) * f, b.vx * f, (b.vy + g) * f, b.radius⟩) ∧
    (∀ f b, move13 0 f b =
      ⟨b.x + b.vx * f, b.y + b.vy * f, b.vx * f, b.vy * f, b.radius⟩) ∧
    (∀ g b, move13 g 1 b =
      ⟨b.x + b.vx, b.y + (b.vy + g), b.vx, b.vy + g, b.radius⟩) ∧
    (∀ b, move15 b =
      ⟨b.x + b.vx, b.y + b.vy, b.vx * 0.995, b.vy * 0.995, b.radius⟩) := by
  refine ⟨fun g f b => ?_, fun f b => ?_, fun g b => ?_, fun b => ?_⟩ <;>
    simp [move13, move15]

/-! ## MatchClock

futbol 1.2 keeps `state` in `{"FIRST_HALF", "HALFTIME", "SECOND_HALF",
"FULLTIME"}`; the timer block (lines 549-574) runs first, then the
`HALFTIME` auto-resume block (lines 611-616).  futbol 1.4 is identical
except that the first-half transition assigns the string `"Devre arası"`
(line 1276), which the resume block's `state == "HALFTIME"` test never
matches. `FRAMES_PER_SIM_MINUTE = 30`. -/

inductive ClockState where
  | FIRST_HALF
  | HALFTIME
  | SECOND_HALF
  | FULLTIME

structure Clock12 where
  state : ClockState
  fc : ℕ
  display : Bool

/-- One frame of futbol 1.2's clock logic: the timer block followed by the
halftime-resume block, with the injury-time draws `a1`, `a2` fixed. -/
def clockStep12 (a1 a2 : ℕ) (c : Clock12) : Clock12 :=
  let c1 : Clock12 :=
    match c.state with
    | ClockState.FIRST_HALF =>
      let fc := c.fc + 1
      let m := fc / 30
      if 45 ≤ m then
        if 45 + a1 ≤ m then ⟨ClockState.HALFTIME, fc, true⟩
        else ⟨ClockState.FIRST_HALF, fc, true⟩
      else ⟨ClockState.FIRST_HALF, fc, false⟩
    | ClockState.SECOND_HALF =>
      let fc := c.fc + 1
      let m := 45 + fc / 30
      if 90 ≤ m then
        if 90 + a2 ≤ m then ⟨ClockState.FULLTIME, fc, true⟩
        else ⟨ClockState.SECOND_HALF, fc, true⟩
      else ⟨ClockState.SECOND_HALF, fc, false⟩
    | _ => c
  match c1.state with
  | ClockState.HALFTIME => ⟨ClockState.SECOND_HALF, 0, false⟩
  | _ => c1

/-- Position of a clock state along the chain
FirstHalf → HalfTime → SecondHalf → FullTime. -/
def ord : ClockState → ℕ
  | ClockState.FIRST_HALF => 0
  | ClockState.HALFTIME => 1
  | ClockState.SECOND_HALF => 2
  | ClockState.FULLTIME => 3

inductive ClockState14 where
  | FIRST_HALF
  | HALFTIME
  | DEVRE_ARASI
  | SECOND_HALF
  | FULLTIME

structure Clock14 where
  state : ClockState14
  fc : ℕ
  display : Bool

/-- One frame of futbol 1.4's clock logic; the only difference from 1.2 is
that the first half ends in the state `"Devre arası"`, which the resume block
(still testing for `"HALFTIME"`) never matches. -/
def clockStep14 (a1 a2 : ℕ) (c : Clock14) : Clock14 :=
  let c1 : Clock14 :=
    match c.state with
    | ClockState14.FIRST_HALF =>
      let fc := c.fc + 1
      let m := fc / 30
      if 45 ≤ m then
        if 45 + a1 ≤ m then ⟨ClockState14.DEVRE_ARASI, fc, true⟩
        else ⟨ClockState14.FIRST_HALF, fc, true⟩
      else ⟨ClockState14.FIRST_HALF, fc, false⟩
    | ClockState14.SECOND_HALF =>
      let fc := c.fc + 1
      let m := 45 + fc / 30
      if 90 ≤ m then
        if 90 + a2 ≤ m then ⟨ClockState14.FULLTIME, fc, true⟩
        else ⟨ClockState14.SECOND_HALF, fc, true⟩
      else ⟨ClockState14.SECOND_HALF, fc, false⟩
    | _ => c
  match c1.state with
  | ClockState14.HALFTIME => ⟨ClockState14.SECOND_HALF, 0, false⟩
  | _ => c1

/-- Chain position for the futbol 1.4 states; `"Devre arası"` is the halftime
state. -/
def ord14 : ClockState14 → ℕ
  | ClockState14.FIRST_HALF => 0
  | ClockState14.HALFTIME => 1
  | ClockState14.DEVRE_ARASI => 1
  | ClockState14.SECOND_HALF => 2
  | ClockState14.FULLTIME => 3

/-- C6: the match-clock state machines are monotonic along the chain
FirstHalf → HalfTime → SecondHalf → FullTime: no frame of either the futbol
1.2 or the futbol 1.4 clock logic moves the state backward along the chain,
and once the state is FullTime the whole clock is left unchanged forever. -/
theorem C6_clock_monotone :
    (∀ a1 a2 c, ord c.state ≤ ord (clockStep12 a1 a2 c).state) ∧
    (∀ a1 a2 c, c.state = ClockState.FULLTIME → clockStep12 a1 a2 c = c) ∧
    (∀ a1 a2 c, ord14 c.state ≤ ord14 (clockStep14 a1 a2 c).state) ∧
    (∀ a1 a2 c, c.state = ClockState14.FULLTIME → clockStep14 a1 a2 c = c) := by
  refine ⟨fun a1 a2 c => ?_, fun a1 a2 c h => ?_, fun a1 a2 c => ?_,
    fun a1 a2 c h => ?_⟩
  · obtain ⟨st, fc, d⟩ := c
    cases st <;> simp only [clockStep12] <;> (try split_ifs) <;> simp [ord]
  · obtain ⟨st, fc, d⟩ := c
    cases st <;> simp_all [clockStep12]
  · obtain ⟨st, fc, d⟩ := c
    cases st <;> simp only [clockStep14] <;> (try split_ifs) <;> simp [ord14]
  · obtain ⟨st, fc, d⟩ := c
    cases st <;> simp_all [clockStep14]

/-- C6 witness: the theorem applied at concrete clocks — a FullTime 1.2 clock
is left unchanged, a first-half 1.2 frame does not move backward, and the
stuck "Devre arası" state of 1.4 stays in place. -/
theorem C6_clock_monotone_witness :
    ord (⟨ClockState.FIRST_HALF, 0, false⟩ : Clock12).state ≤
      ord (clockStep12 2 5 ⟨ClockState.FIRST_HALF, 0, false⟩).state ∧
    clockStep12 2 5 ⟨ClockState.FULLTIME, 9, true⟩ = ⟨ClockState.FULLTIME, 9, true⟩ ∧
    ord14 (⟨ClockState14.DEVRE_ARASI, 3, true⟩ : Clock14).state ≤
      ord14 (clockStep14 1 2 ⟨ClockState14.DEVRE_ARASI, 3, true⟩).state :=
  ⟨C6_clock_monotone.1 2 5 ⟨ClockState.FIRST_HALF, 0, false⟩,
   C6_clock_monotone.2.1 2 5 ⟨ClockState.FULLTIME, 9, true⟩ rfl,
   C6_clock_monotone.2.2.1 1 2 ⟨ClockState14.DEVRE_ARASI, 3, true⟩⟩

/-! ## Angular distance (goal detection)

The goal-detection code computes `diff = abs(a - b)` and then runs
`while diff > math.pi: diff = abs(diff - 2*math.pi)` (futbol 1.1 lines
292-293, futbol 1.2 lines 592-593, futbol 1.3 lines 947-948). -/

/-- The wraparound while-loop: repeat `d := |d - 2*pi|` while `pi < d`. -/
noncomputable def angLoop (d : ℝ) : ℝ :=
  if Real.pi < d then angLoop |d - 2 * Real.pi| else d
termination_by ⌈d / Real.pi⌉₊
decreasing_by
  rename_i h
  have hpi : (0 : ℝ) < Real.pi := Real.pi_pos
  have h2 : 1 < d / Real.pi := (one_lt_div hpi).2 h
  have hc2 : 1 < ⌈d / Real.pi⌉₊ := by
    rw [Nat.lt_ceil]; exact_mod_cast h2
  by_cases hd : d ≤ 2 * Real.pi
  · have habs : |d - 2 * Real.pi| = 2 * Real.pi - d := by
      rw [abs_of_nonpos (by linarith)]; ring
    have hle : ⌈|d - 2 * Real.pi| / Real.pi⌉₊ ≤ 1 := by
      rw [habs, Nat.ceil_le]
      push_cast
      rw [div_le_one hpi]
      linarith
    omega
  · push_neg at hd
    have habs : |d - 2 * Real.pi| = d - 2 * Real.pi := abs_of_pos (by linarith)
    have h3 : 2 < d / Real.pi := by
      rw [lt_div_iff₀ hpi]; linarith
    have hc3 : 2 < ⌈d / Real.pi⌉₊ := by
      rw [Nat.lt_ceil]; exact_mod_cast h3
    have hle : ⌈|d - 2 * Real.pi| / Real.pi⌉₊ ≤ ⌈d / Real.pi⌉₊ - 2 := by
      rw [habs, Nat.ceil_le, Nat.cast_sub (by omega : 2 ≤ ⌈d / Real.pi⌉₊)]
      have hceil := Nat.le_ceil (d / Real.pi)
      have heq : (d - 2 * Real.pi) / Real.pi = d / Real.pi - 2 := by
        field_simp
        ring
      rw [heq]
      push_cast
      linarith
    omega

/-- Every value the loop produces from a nonnegative start lies in `[0, pi]`
and differs from the start by some whole multiple of `2*pi`, up to sign. -/
theorem angLoop_spec : ∀ d : ℝ, 0 ≤ d →
    0 ≤ angLoop d ∧ angLoop d ≤ Real.pi ∧
      ∃ k : ℤ, angLoop d = |d - 2 * Real.pi * k| := by
  intro d
  induction d using angLoop.induct with
  | case1 d h ih =>
    intro _
    rw [angLoop, if_pos h]
    obtain ⟨h0, hπ, k, hk⟩ := ih (abs_nonneg _)
    refine ⟨h0, hπ, ?_⟩
    by_cases hd2 : 2 * Real.pi ≤ d
    · have he : |d - 2 * Real.pi| = d - 2 * Real.pi := abs_of_nonneg (by linarith)
      refine ⟨k + 1, ?_⟩
      rw [hk, he]
      congr 1
      push_cast
      ring
    · push_neg at hd2
      have he : |d - 2 * Real.pi| = 2 * Real.pi - d := by
        rw [abs_of_nonpos (by linarith)]; ring
      refine ⟨1 - k, ?_⟩
      rw [hk, he, show (2 * Real.pi - d - 2 * Real.pi * k : ℝ) =
        -(d - 2 * Real.pi * ((1 : ℤ) - k : ℤ)) by push_cast; ring, abs_neg]
  | case2 d h =>
    intro hd
    rw [angLoop, if_neg h]
    push_neg at h
    exact ⟨hd, h, 0, by simp [abs_of_nonneg hd]⟩

/-- A value of `[0, pi]` that is congruent to `±x` modulo `2*pi` is the
minimum of `|x - 2*pi*m|` over all integers `m`. -/
theorem angLoop_min (r x : ℝ) (k : ℤ) (h0 : 0 ≤ r) (hπ : r ≤ Real.pi)
    (hk : r = |x - 2 * Real.pi * k|) :
    ∀ m : ℤ, r ≤ |x - 2 * Real.pi * m| := by
  intro m
  by_cases hm : m = k
  · subst hm
    rw [← hk]
  · have hkm : (k : ℤ) - m ≠ 0 := sub_ne_zero.2 fun hh => hm hh.symm
    have h1 : (1 : ℝ) ≤ |((k : ℝ) - m)| := by
      have := Int.one_le_abs hkm
      exact_mod_cast this
    have habs : x - 2 * Real.pi * m =
        (x - 2 * Real.pi * k) + 2 * Real.pi * ((k : ℝ) - m) := by ring
    have hBle : |2 * Real.pi * ((k : ℝ) - m)| ≤
        |x - 2 * Real.pi * m| + |x - 2 * Real.pi * k| := by
      calc |2 * Real.pi * ((k : ℝ) - m)|
          = |(x - 2 * Real.pi * m) + -(x - 2 * Real.pi * k)| := by
            congr 1; ring
        _ ≤ |x - 2 * Real.pi * m| + |-(x - 2 * Real.pi * k)| :=
            abs_add _ _
        _ = |x - 2 * Real.pi * m| + |x - 2 * Real.pi * k| := by
            rw [abs_neg]
    have hB : 2 * Real.pi ≤ |2 * Real.pi * ((k : ℝ) - m)| := by
      rw [abs_mul, abs_of_pos (by positivity : (0 : ℝ) < 2 * Real.pi)]
      nlinarith [Real.pi_pos]
    have := Real.pi_pos
    rw [← hk] at hBle
    linarith

/-- `diff = abs(a - b)` followed by the wraparound loop. -/
noncomputable def angularDiff (a b : ℝ) : ℝ := angLoop |a - b|

/-- C5: for every zone angle `a` and point angle `b`, the angular-distance
computation (`diff = |a-b|; while diff > pi: diff = |diff - 2*pi|`) returns a
value in `[0, pi]` equal to the minimal absolute angular difference over all
`2*pi` wraparounds; in particular for zone angle `0.05` and point angle
`-0.05` it returns `0.1`, with no spurious `2*pi` wrap. -/
theorem C5_angular_distance :
    (∀ a b : ℝ,
      0 ≤ angularDiff a b ∧ angularDiff a b ≤ Real.pi ∧
      (∃ k : ℤ, angularDiff a b = |a - b - 2 * Real.pi * k|) ∧
      ∀ m : ℤ, angularDiff a b ≤ |a - b - 2 * Real.pi * m|) ∧
    angularDiff 0.05 (-0.05) = 0.1 := by
  constructor
  · intro a b
    obtain ⟨h0, hπ, k, hk⟩ := angLoop_spec |a - b| (abs_nonneg _)
    have hex : ∃ j : ℤ, angularDiff a b = |a - b - 2 * Real.pi * j| := by
      by_cases hab : 0 ≤ a - b
      · refine ⟨k, ?_⟩
        rw [angularDiff, hk, abs_of_nonneg hab]
      · push_neg at hab
        refine ⟨-k, ?_⟩
        rw [angularDiff, hk, abs_of_neg hab,
          show (-(a - b) - 2 * Real.pi * k : ℝ) =
            -(a - b - 2 * Real.pi * ((-k : ℤ) : ℝ)) by push_cast; ring, abs_neg]
    obtain ⟨j, hj⟩ := hex
    exact ⟨h0, hπ, ⟨j, hj⟩, angLoop_min _ _ j h0 hπ hj⟩
  · have habs : |(0.05 : ℝ) - (-0.05)| = 0.1 := by norm_num
    rw [angularDiff, habs, angLoop,
      if_neg (by push_neg; linarith [Real.pi_gt_three])]

/-! ## atan2 and Python float modulo -/

/-- `math.atan2 y x` by its standard case definition (the sign-of-zero float
cases collapse in exact arithmetic). -/
noncomputable def atan2 (y x : ℝ) : ℝ :=
  if 0 < x then Real.arctan (y / x)
  else if x < 0 then
    (if 0 ≤ y then Real.arctan (y / x) + Real.pi else Real.arctan (y / x) - Real.pi)
  else
    (if 0 < y then Real.pi / 2 else if y < 0 then -(Real.pi / 2) else 0)

/-- Python float `x % y` (the result takes the sign of the divisor):
`x - y * floor (x / y)`. -/
noncomputable def pymod (x y : ℝ) : ℝ := x - y * ⌊x / y⌋

theorem atan2_zero_pos (x : ℝ) (hx : 0 < x) : atan2 0 x = 0 := by
  rw [atan2, if_pos hx, zero_div, Real.arctan_zero]

theorem pymod_zero_left (y : ℝ) : pymod 0 y = 0 := by
  rw [pymod, zero_div]
  simp

/-! ## Wall collision -/

/-- `Ball.collide_wall` of futbol 1.2 (lines 483-496; futbol 1.1's
`collide_circle_wall` and futbol 1.3's `collide_wall` share the same
structure): unconditional velocity reflection, then positional push-back.
`none` models the `ZeroDivisionError` raised by `nx, ny = dx/dist, dy/dist`
when the guard has fired with `dist = 0`. -/
noncomputable def collide_wall_v2 (cx cy R : ℝ) (b : Ball) : Option Ball :=
  let dx := b.x - cx
  let dy := b.y - cy
  let dist := hypot dx dy
  if R ≤ dist + b.radius then
    if dist = 0 then none
    else
      let nx := dx / dist
      let ny := dy / dist
      let dot := b.vx * nx + b.vy * ny
      let overlap := dist + b.radius - R
      some { x := b.x - nx * overlap, y := b.y - ny * overlap,
             vx := b.vx - 2 * dot * nx, vy := b.vy - 2 * dot * ny,
             radius := b.radius }
  else some b

/-- `Ball.collide_wall` of futbol 1.4 (lines 1169-1191): identical to the
futbol 1.2 version except that the reflection (scaled by
`BOUNCE_DAMPING = 0.9995`) is applied only when `dot > 0`, i.e. when the ball
is moving outwards; the positional push-back is unconditional. -/
noncomputable def collide_wall_v4 (cx cy R : ℝ) (b : Ball) : Option Ball :=
  let dx := b.x - cx
  let dy := b.y - cy
  let dist := hypot dx dy
  if R ≤ dist + b.radius then
    if dist = 0 then none
    else
      let nx := dx / dist
      let ny := dy / dist
      let dot := b.vx * nx + b.vy * ny
      let overlap := dist + b.radius - R
      some { x := b.x - nx * overlap, y := b.y - ny * overlap,
             vx := if 0 < dot then (b.vx - 2 * dot * nx) * 0.9995 else b.vx,
             vy := if 0 < dot then (b.vy - 2 * dot * ny) * 0.9995 else b.vy,
             radius := b.radius }
  else some b

/-! ## Pairwise collision -/

/-- `check_ball_collision` of futbol 1.1 (lines 197-232): normal from `b1`
towards `b2`, impulse applied unless `speed_normal < 0`, then symmetric
de-penetration.  No zero-distance clamp, so a coincident overlapping pair
raises (`none`). -/
noncomputable def check_ball_collision (b1 b2 : Ball) : Option (Ball × Ball) :=
  let dx := b2.x - b1.x
  let dy := b2.y - b1.y
  let dist := hypot dx dy
  if dist < b1.radius + b2.radius then
    if dist = 0 then none
    else
      let nx := dx / dist
      let ny := dy / dist
      let sn := (b1.vx - b2.vx) * nx + (b1.vy - b2.vy) * ny
      if sn < 0 then some (b1, b2)
      else
        let overlap := b1.radius + b2.radius - dist
        some ({ b1 with vx := b1.vx - sn * nx, vy := b1.vy - sn * ny,
                        x := b1.x - nx * overlap / 2, y := b1.y - ny * overlap / 2 },
              { b2 with vx := b2.vx + sn * nx, vy := b2.vy + sn * ny,
                        x := b2.x + nx * overlap / 2, y := b2.y + ny * overlap / 2 })
  else some (b1, b2)

/-- `check_collision` of futbol 1.2 (lines 498-515): returns before both the
impulse and the de-penetration when `impulse > 0`; no zero-distance clamp. -/
noncomputable def check_collision (b1 b2 : Ball) : Option (Ball × Ball) :=
  let dx := b2.x - b1.x
  let dy := b2.y - b1.y
  let dist := hypot dx dy
  if dist < b1.radius + b2.radius then
    if dist = 0 then none
    else
      let nx := dx / dist
      let ny := dy / dist
      let impulse := (b1.vx - b2.vx) * nx + (b1.vy - b2.vy) * ny
      if 0 < impulse then some (b1, b2)
      else
        let overlap := b1.radius + b2.radius - dist
        some ({ b1 with vx := b1.vx - impulse * nx, vy := b1.vy - impulse * ny,
                        x := b1.x - nx * overlap * 0.5, y := b1.y - ny * overlap * 0.5 },
              { b2 with vx := b2.vx + impulse * nx, vy := b2.vy + impulse * ny,
                        x := b2.x + nx * overlap * 0.5, y := b2.y + ny * overlap * 0.5 })
  else some (b1, b2)

/-- `resolve_collisions` of futbol 1.3 (lines 832-864) and 1.4 (lines
1193-1224), with `ELASTICITY` as the parameter `e`: the zero distance is
clamped to `0.1`, the pair is separated symmetrically first, and the impulse
is applied unless `vel_normal > 0`. -/
noncomputable def resolve_collisions (e : ℝ) (b1 b2 : Ball) : Ball × Ball :=
  let dx := b2.x - b1.x
  let dy := b2.y - b1.y
  let dist0 := hypot dx dy
  if dist0 < b1.radius + b2.radius then
    let dist := if dist0 = 0 then 0.1 else dist0
    let nx := dx / dist
    let ny := dy / dist
    let overlap := b1.radius + b2.radius - dist
    let p1 : Ball := { b1 with x := b1.x - nx * overlap * 0.5, y := b1.y - ny * overlap * 0.5 }
    let p2 : Ball := { b2 with x := b2.x + nx * overlap * 0.5, y := b2.y + ny * overlap * 0.5 }
    let vn := (b1.vx - b2.vx) * nx + (b1.vy - b2.vy) * ny
    if 0 < vn then (p1, p2)
    else
      let j := -(1 + e) * vn / 2
      ({ p1 with vx := p1.vx + j * nx, vy := p1.vy + j * ny },
       { p2 with vx := p2.vx - j * nx, vy := p2.vy - j * ny })
  else (b1, b2)

/-- C2: for a body touching or past the wall (`R ≤ dist + radius`), futbol
1.4's `collide_wall` reflects the velocity (scaled by the damping factor
0.9995) if and only if the ball is moving outwards (`0 < dot v n` for the
outward unit normal `n`); a touching ball moving inwards keeps its velocity
unchanged, and in both cases only the positional push-back along `-n` is
applied. -/
theorem C2_wall_reflection_gate (cx cy R : ℝ) (b b' : Ball)
    (hw : collide_wall_v4 cx cy R b = some b')
    (ht : R ≤ hypot (b.x - cx) (b.y - cy) + b.radius) :
    let dist := hypot (b.x - cx) (b.y - cy)
    let nx := (b.x - cx) / dist
    let ny := (b.y - cy) / dist
    let dot := b.vx * nx + b.vy * ny
    (0 < dot → b'.vx = (b.vx - 2 * dot * nx) * 0.9995 ∧
               b'.vy = (b.vy - 2 * dot * ny) * 0.9995) ∧
    (¬ 0 < dot → b'.vx = b.vx ∧ b'.vy = b.vy) ∧
    b'.x = b.x - nx * (dist + b.radius - R) ∧
    b'.y = b.y - ny * (dist + b.radius - R) ∧
    b'.radius = b.radius := by
  intro dist nx ny dot
  simp only [collide_wall_v4, if_pos ht] at hw
  by_cases h0 : hypot (b.x - cx) (b.y - cy) = 0
  · rw [if_pos h0] at hw
    cases hw
  · rw [if_neg h0] at hw
    have hb := Option.some.inj hw
    subst hb
    refine ⟨fun hd => ⟨?_, ?_⟩, fun hd => ⟨?_, ?_⟩, rfl, rfl, rfl⟩
    · simp only [if_pos hd]
    · simp only [if_pos hd]
    · simp only [if_neg hd]
    · simp only [if_neg hd]

/-- C2 witness: the theorem applied at an arena of radius 5 centred at the
origin and the touching, inward-moving ball at `(5,0)` with velocity
`(-1,0)`: the dot product is negative, so the velocity is kept and only the
position is pushed back in. -/
theorem C2_wall_reflection_gate_witness :
    let b : Ball := ⟨5, 0, -1, 0, 1⟩
    let dist := hypot (b.x - 0) (b.y - 0)
    let nx := (b.x - 0) / dist
    let ny := (b.y - 0) / dist
    let dot := b.vx * nx + b.vy * ny
    (0 < dot → (⟨4, 0, -1, 0, 1⟩ : Ball).vx = (b.vx - 2 * dot * nx) * 0.9995 ∧
               (⟨4, 0, -1, 0, 1⟩ : Ball).vy = (b.vy - 2 * dot * ny) * 0.9995) ∧
    (¬ 0 < dot → (⟨4, 0, -1, 0, 1⟩ : Ball).vx = b.vx ∧
                 (⟨4, 0, -1, 0, 1⟩ : Ball).vy = b.vy) ∧
    (⟨4, 0, -1, 0, 1⟩ : Ball).x = b.x - nx * (dist + b.radius - 5) ∧
    (⟨4, 0, -1, 0, 1⟩ : Ball).y = b.y - ny * (dist + b.radius - 5) ∧
    (⟨4, 0, -1, 0, 1⟩ : Ball).radius = b.radius := by
  have h5 : hypot ((5 : ℝ) - 0) ((0 : ℝ) - 0) = 5 := by
    norm_num [hypot_axis, abs_of_nonneg]
  have heval : collide_wall_v4 0 0 5 ⟨5, 0, -1, 0, 1⟩ = some ⟨4, 0, -1, 0, 1⟩ := by
    simp only [collide_wall_v4]
    rw [h5]
    rw [if_pos (by norm_num), if_neg (by norm_num : (5 : ℝ) ≠ 0)]
    norm_num
  have htouch : (5 : ℝ) ≤
      hypot ((⟨5, 0, -1, 0, 1⟩ : Ball).x - 0) ((⟨5, 0, -1, 0, 1⟩ : Ball).y - 0) +
        (⟨5, 0, -1, 0, 1⟩ : Ball).radius := by
    show (5 : ℝ) ≤ hypot ((5 : ℝ) - 0) ((0 : ℝ) - 0) + 1
    rw [h5]; norm_num
  exact C2_wall_reflection_gate 0 0 5 ⟨5, 0, -1, 0, 1⟩ ⟨4, 0, -1, 0, 1⟩ heval htouch

/-- C3 counterexample: the wall-collision operation substitutes no fallback
normal.  A ball at the arena center whose radius reaches the wall makes the
guard fire with `dist = 0`, and the division `nx = dx / dist` raises instead
of recovering — the operation is not total and no fallback normal `(1,0)` is
used. -/
theorem C3_wall_fallback_cex :
    collide_wall_v2 300 400 260 ⟨300, 400, 3, 4, 300⟩ = none := by
  simp only [collide_wall_v2]
  have h0 : hypot ((300 : ℝ) - 300) ((400 : ℝ) - 400) = 0 := by
    norm_num [hypot_axis]
  rw [h0]
  rw [if_pos (by norm_num), if_pos rfl]

/-- C3 (amended): the pairwise resolver of futbol 1.3/1.4 clamps a zero
center distance to `0.1` and never divides by zero — on an exactly coincident
pair the clamped normal degenerates to `(0,0)` and the resolver returns the
pair unchanged; the wall-collision operation has no fallback normal, but for
every body whose radius is smaller than the arena radius the guard cannot
fire at distance `0`, so it never divides by zero either. -/
theorem C3_degenerate_geometry_amended :
    (∀ cx cy R : ℝ, ∀ b : Ball, b.radius < R → (collide_wall_v2 cx cy R b).isSome) ∧
    (∀ e : ℝ, ∀ b1 b2 : Ball, b1.x = b2.x → b1.y = b2.y →
      resolve_collisions e b1 b2 = (b1, b2)) := by
  constructor
  · intro cx cy R b hr
    simp only [collide_wall_v2]
    by_cases hguard : R ≤ hypot (b.x - cx) (b.y - cy) + b.radius
    · rw [if_pos hguard]
      have hne : hypot (b.x - cx) (b.y - cy) ≠ 0 := by
        intro h0
        rw [h0] at hguard
        linarith
      rw [if_neg hne]
      rfl
    · rw [if_neg hguard]
      rfl
  · intro e b1 b2 hx hy
    obtain ⟨x1, y1, vx1, vy1, r1⟩ := b1
    obtain ⟨x2, y2, vx2, vy2, r2⟩ := b2
    simp only at hx hy
    subst hx
    subst hy
    simp only [resolve_collisions, sub_self]
    have h0 : hypot (0 : ℝ) 0 = 0 := by norm_num [hypot_axis]
    rw [h0]
    split_ifs <;> norm_num

/-- C3 witness: the amended theorem applied at a radius-30 ball inside the
260-radius arena (the wall operation completes) and at an exactly coincident
pair (the resolver's clamp avoids the division and the pair is returned
unchanged). -/
theorem C3_degenerate_geometry_amended_witness :
    (collide_wall_v2 300 400 260 ⟨300, 400, 3, 4, 30⟩).isSome ∧
    resolve_collisions 0.95 ⟨7, 8, 1, 2, 30⟩ ⟨7, 8, 3, 4, 30⟩ =
      (⟨7, 8, 1, 2, 30⟩, ⟨7, 8, 3, 4, 30⟩) :=
  ⟨C3_degenerate_geometry_amended.1 300 400 260 ⟨300, 400, 3, 4, 30⟩ (by norm_num),
   C3_degenerate_geometry_amended.2 0.95 ⟨7, 8, 1, 2, 30⟩ ⟨7, 8, 3, 4, 30⟩ rfl rfl⟩

/-- C7: evaluation of futbol 1.3/1.4's `resolve_collisions` at a concrete
overlapping pair.  First conjunct: for the pair closing head-on (relative
normal velocity `vn = 1 > 0`, third conjunct) the resolver only separates the
positions and leaves both velocities unchanged — its guard
`if vel_normal > 0: return`, commented "Already moving apart", skips the
impulse exactly when the pair is closing.  Second conjunct: for the same
geometry with `b1` moving away (`vn = -1`), the resolver does apply an
impulse (`j = 0.975`), changing the velocities of a separating pair. -/
theorem C7_resolver_gate_bug_eval :
    resolve_collisions 0.95 ⟨0, 0, 1, 0, 30⟩ ⟨10, 0, 0, 0, 30⟩ =
      (⟨-25, 0, 1, 0, 30⟩, ⟨35, 0, 0, 0, 30⟩) ∧
    resolve_collisions 0.95 ⟨0, 0, -1, 0, 30⟩ ⟨10, 0, 0, 0, 30⟩ =
      (⟨-25, 0, -0.025, 0, 30⟩, ⟨35, 0, -0.975, 0, 30⟩) ∧
    (0 : ℝ) < ((1 : ℝ) - 0) * (((10 : ℝ) - 0) / hypot ((10 : ℝ) - 0) ((0 : ℝ) - 0)) +
      ((0 : ℝ) - 0) * (((0 : ℝ) - 0) / hypot ((10 : ℝ) - 0) ((0 : ℝ) - 0)) := by
  have h10 : hypot ((10 : ℝ) - 0) ((0 : ℝ) - 0) = 10 := by
    norm_num [hypot_axis, abs_of_nonneg]
  refine ⟨?_, ?_, ?_⟩
  · simp only [resolve_collisions, h10]
    rw [if_pos (by norm_num), if_neg (by norm_num : (10 : ℝ) ≠ 0)]
    rw [if_pos (by norm_num)]
    norm_num
  · simp only [resolve_collisions, h10]
    rw [if_pos (by norm_num), if_neg (by norm_num : (10 : ℝ) ≠ 0)]
    rw [if_neg (by norm_num)]
    norm_num
  · rw [h10]
    norm_num

/-- C9: one application of the pairwise collision resolver conserves the
vector sum of the two bodies' velocities: whatever impulse is added to one
body is subtracted from the other, both in futbol 1.3/1.4's
`resolve_collisions` (always) and in futbol 1.1's `check_ball_collision`
(whenever it completes without a zero-distance error).  The bodies' masses
are implicitly equal in both versions. -/
theorem C9_momentum_conservation :
    (∀ e : ℝ, ∀ b1 b2 : Ball,
      (resolve_collisions e b1 b2).1.vx + (resolve_collisions e b1 b2).2.vx =
        b1.vx + b2.vx ∧
      (resolve_collisions e b1 b2).1.vy + (resolve_collisions e b1 b2).2.vy =
        b1.vy + b2.vy) ∧
    (∀ b1 b2 : Ball, ∀ p : Ball × Ball, check_ball_collision b1 b2 = some p →
      p.1.vx + p.2.vx = b1.vx + b2.vx ∧ p.1.vy + p.2.vy = b1.vy + b2.vy) := by
  constructor
  · intro e b1 b2
    simp only [resolve_collisions]
    split_ifs <;> constructor <;> simp
  · intro b1 b2 p hp
    simp only [check_ball_collision] at hp
    split_ifs at hp
    all_goals cases hp
    all_goals refine ⟨?_, ?_⟩ <;> simp

/-- C9 witness: the conservation law applied to futbol 1.1's
`check_ball_collision` at a concrete overlapping, closing pair on the x-axis
(the impulse branch runs: the velocities are exchanged, their sum is kept). -/
theorem C9_momentum_conservation_witness :
    ((⟨-25, 0, 0, 0, 30⟩, ⟨35, 0, 1, 0, 30⟩) : Ball × Ball).1.vx +
        ((⟨-25, 0, 0, 0, 30⟩, ⟨35, 0, 1, 0, 30⟩) : Ball × Ball).2.vx =
      (⟨0, 0, 1, 0, 30⟩ : Ball).vx + (⟨10, 0, 0, 0, 30⟩ : Ball).vx ∧
    ((⟨-25, 0, 0, 0, 30⟩, ⟨35, 0, 1, 0, 30⟩) : Ball × Ball).1.vy +
        ((⟨-25, 0, 0, 0, 30⟩, ⟨35, 0, 1, 0, 30⟩) : Ball × Ball).2.vy =
      (⟨0, 0, 1, 0, 30⟩ : Ball).vy + (⟨10, 0, 0, 0, 30⟩ : Ball).vy := by
  have h10 : hypot ((10 : ℝ) - 0) ((0 : ℝ) - 0) = 10 := by
    norm_num [hypot_axis, abs_of_nonneg]
  have heval : check_ball_collision ⟨0, 0, 1, 0, 30⟩ ⟨10, 0, 0, 0, 30⟩ =
      some (⟨-25, 0, 0, 0, 30⟩, ⟨35, 0, 1, 0, 30⟩) := by
    simp only [check_ball_collision, h10]
    rw [if_pos (by norm_num), if_neg (by norm_num : (10 : ℝ) ≠ 0)]
    rw [if_neg (by norm_num)]
    norm_num
  exact C9_momentum_conservation.2 ⟨0, 0, 1, 0, 30⟩ ⟨10, 0, 0, 0, 30⟩
    (⟨-25, 0, 0, 0, 30⟩, ⟨35, 0, 1, 0, 30⟩) heval

/-! ## futbol 1.2 : the physics block of one tick (lines 577-608)

Constants: `WIDTH, HEIGHT = 600, 800`, so `center = (300, 400)`;
`ARENA_RADIUS = 260`, `BALL_RADIUS = 30`, `GOAL_WIDTH_RADIANS = 0.35`,
`goal_rot_speed = 0.015`, reset spots `(240, 400)` and `(360, 400)`. -/

/-- The state mutated by the futbol 1.2 physics block: both balls, the goal
angle and rotation flag, the two scores, and the index of the next
pseudo-random draw. -/
structure State12 where
  b1 : Ball
  b2 : Ball
  goalAngle : ℝ
  goalRotating : Bool
  score1 : ℕ
  score2 : ℕ
  rk : ℕ

/-- The goal test of futbol 1.2 (lines 590-595) for one ball: near the wall
(`dist > ARENA_RADIUS - radius - 5`) and within half the goal width of the
goal angle. -/
noncomputable def goalCond12 (goalAngle : ℝ) (b : Ball) : Prop :=
  260 - b.radius - 5 < hypot (b.x - 300) (b.y - 400) ∧
  angularDiff (atan2 (b.y - 400) (b.x - 300)) goalAngle < 0.35 / 2

/-- One iteration of futbol 1.2's goal-detection loop body (lines 589-608),
for ball 1 (`i = true`) or ball 2 (`i = false`): on a goal the scorer's score
increments, rotation is enabled (the total is then at least 1), the goal angle
resets to `pi/2`, both balls return to the centre spots and get four fresh
`random.choice` velocity draws. -/
noncomputable def goalStep12 (rng : ℕ → ℝ) (i : Bool) (s : State12) : State12 :=
  let b := cond i s.b1 s.b2
  if goalCond12 s.goalAngle b then
    let sc1 := cond i (s.score1 + 1) s.score1
    let sc2 := cond i s.score2 (s.score2 + 1)
    { b1 := { s.b1 with x := 240, y := 400, vx := rng s.rk, vy := rng (s.rk + 1) },
      b2 := { s.b2 with x := 360, y := 400, vx := rng (s.rk + 2), vy := rng (s.rk + 3) },
      goalAngle := Real.pi / 2,
      goalRotating := if 1 ≤ sc1 + sc2 then true else s.goalRotating,
      score1 := sc1,
      score2 := sc2,
      rk := s.rk + 4 }
  else s

/-- futbol 1.2's goal-detection loop `for b in [ball1, ball2]`: ball 1 is
checked first, then ball 2 against the possibly already-reset state. -/
noncomputable def goalLoop12 (rng : ℕ → ℝ) (s : State12) : State12 :=
  goalStep12 rng false (goalStep12 rng true s)

/-- One tick of the futbol 1.2 physics block (lines 577-608), as executed in
an active clock state: goal rotation, per-ball move and wall collision,
pairwise collision, then the goal-detection loop.  `none` when one of the
collision routines raises. -/
noncomputable def tick12 (rng : ℕ → ℝ) (s : State12) : Option State12 :=
  let s0 := if s.goalRotating
    then { s with goalAngle := pymod (s.goalAngle + 0.015) (2 * Real.pi) }
    else s
  match collide_wall_v2 300 400 260 (move12 s0.b1) with
  | none => none
  | some w1 =>
    match collide_wall_v2 300 400 260 (move12 s0.b2) with
    | none => none
    | some w2 =>
      match check_collision w1 w2 with
      | none => none
      | some (c1, c2) => some (goalLoop12 rng { s0 with b1 := c1, b2 := c2 })

/-! ### Containment lemmas -/

theorem hypot_div_self (dx dy : ℝ) (hz : hypot dx dy ≠ 0) :
    hypot (dx / hypot dx dy) (dy / hypot dx dy) = 1 := by
  have hpos : 0 < hypot dx dy := lt_of_le_of_ne (hypot_nonneg dx dy) (Ne.symm hz)
  rw [div_eq_mul_inv, div_eq_mul_inv, mul_comm dx, mul_comm dy, hypot_smul,
    abs_of_pos (inv_pos.2 hpos), inv_mul_cancel₀ hz]

/-- A successful futbol 1.2 wall pass leaves the body at distance-plus-radius
at most the arena radius: an untouched body was strictly inside, and a
corrected body sits exactly on the wall. -/
theorem collide_wall_v2_bound (cx cy R : ℝ) (b b' : Ball)
    (hrR : b.radius ≤ R)
    (hw : collide_wall_v2 cx cy R b = some b') :
    hypot (b'.x - cx) (b'.y - cy) + b'.radius ≤ R ∧ b'.radius = b.radius := by
  simp only [collide_wall_v2] at hw
  by_cases hg : R ≤ hypot (b.x - cx) (b.y - cy) + b.radius
  · rw [if_pos hg] at hw
    by_cases hz : hypot (b.x - cx) (b.y - cy) = 0
    · rw [if_pos hz] at hw
      cases hw
    · rw [if_neg hz] at hw
      have hb := Option.some.inj hw
      subst hb
      dsimp only
      have hdpos : 0 < hypot (b.x - cx) (b.y - cy) :=
        lt_of_le_of_ne (hypot_nonneg _ _) (Ne.symm hz)
      set d := hypot (b.x - cx) (b.y - cy) with hd
      have hx : b.x - (b.x - cx) / d * (d + b.radius - R) - cx
          = ((R - b.radius) / d) * (b.x - cx) := by
        field_simp
        ring
      have hy : b.y - (b.y - cy) / d * (d + b.radius - R) - cy
          = ((R - b.radius) / d) * (b.y - cy) := by
        field_simp
        ring
      rw [hx, hy, hypot_smul, ← hd, abs_div, abs_of_pos hdpos,
        div_mul_eq_mul_div, mul_div_assoc, div_self (ne_of_gt hdpos), mul_one,
        abs_of_nonneg (by linarith : (0 : ℝ) ≤ R - b.radius)]
      constructor
      · linarith
      · rfl
  · rw [if_neg hg] at hw
    have hb := Option.some.inj hw
    subst hb
    push_neg at hg
    exact ⟨le_of_lt hg, rfl⟩

/-- The futbol 1.2 pairwise pass moves each body's centre by at most half the
radius sum (the de-penetration displacement), so each body's distance to any
point grows by at most `(r1 + r2) / 2`. -/
theorem check_collision_bound (cx cy : ℝ) (b1 b2 c1 c2 : Ball)
    (h1 : 0 ≤ b1.radius) (h2 : 0 ≤ b2.radius)
    (hc : check_collision b1 b2 = some (c1, c2)) :
    hypot (c1.x - cx) (c1.y - cy) ≤
      hypot (b1.x - cx) (b1.y - cy) + (b1.radius + b2.radius) / 2 ∧
    hypot (c2.x - cx) (c2.y - cy) ≤
      hypot (b2.x - cx) (b2.y - cy) + (b1.radius + b2.radius) / 2 ∧
    c1.radius = b1.radius ∧ c2.radius = b2.radius := by
  have hhalf : (0 : ℝ) ≤ (b1.radius + b2.radius) / 2 := by linarith
  simp only [check_collision] at hc
  split_ifs at hc with hov hz him
  · injection hc with hp
    injection hp with hc1 hc2
    subst hc1
    subst hc2
    exact ⟨by linarith, by linarith, rfl, rfl⟩
  · injection hc with hp
    injection hp with hc1 hc2
    subst hc1
    subst hc2
    dsimp only
    have hdpos : 0 < hypot (b2.x - b1.x) (b2.y - b1.y) :=
      lt_of_le_of_ne (hypot_nonneg _ _) (Ne.symm hz)
    set d := hypot (b2.x - b1.x) (b2.y - b1.y) with hd
    set ov := b1.radius + b2.radius - d with hov2
    have hovpos : 0 < ov := by rw [hov2]; linarith
    have hovle : ov * 0.5 ≤ (b1.radius + b2.radius) / 2 := by
      rw [hov2]
      nlinarith [le_of_lt hdpos]
    have hunit : hypot ((b2.x - b1.x) / d) ((b2.y - b1.y) / d) = 1 := by
      rw [hd]
      exact hypot_div_self _ _ hz
    refine ⟨?_, ?_, rfl, rfl⟩
    · have e1 : b1.x - (b2.x - b1.x) / d * ov * 0.5 - cx
          = (b1.x - cx) + (-(ov * 0.5)) * ((b2.x - b1.x) / d) := by ring
      have e2 : b1.y - (b2.y - b1.y) / d * ov * 0.5 - cy
          = (b1.y - cy) + (-(ov * 0.5)) * ((b2.y - b1.y) / d) := by ring
      calc hypot (b1.x - (b2.x - b1.x) / d * ov * 0.5 - cx)
            (b1.y - (b2.y - b1.y) / d * ov * 0.5 - cy)
          = hypot ((b1.x - cx) + (-(ov * 0.5)) * ((b2.x - b1.x) / d))
              ((b1.y - cy) + (-(ov * 0.5)) * ((b2.y - b1.y) / d)) := by rw [e1, e2]
        _ ≤ hypot (b1.x - cx) (b1.y - cy) +
              hypot ((-(ov * 0.5)) * ((b2.x - b1.x) / d))
                ((-(ov * 0.5)) * ((b2.y - b1.y) / d)) := hypot_triangle _ _ _ _
        _ = hypot (b1.x - cx) (b1.y - cy) + |(-(ov * 0.5))| * 1 := by
              rw [hypot_smul, hunit]
        _ ≤ hypot (b1.x - cx) (b1.y - cy) + (b1.radius + b2.radius) / 2 := by
              rw [abs_neg, abs_of_pos (by linarith : (0 : ℝ) < ov * 0.5), mul_one]
              linarith
    · have e1 : b2.x + (b2.x - b1.x) / d * ov * 0.5 - cx
          = (b2.x - cx) + (ov * 0.5) * ((b2.x - b1.x) / d) := by ring
      have e2 : b2.y + (b2.y - b1.y) / d * ov * 0.5 - cy
          = (b2.y - cy) + (ov * 0.5) * ((b2.y - b1.y) / d) := by ring
      calc hypot (b2.x + (b2.x - b1.x) / d * ov * 0.5 - cx)
            (b2.y + (b2.y - b1.y) / d * ov * 0.5 - cy)
          = hypot ((b2.x - cx) + (ov * 0.5) * ((b2.x - b1.x) / d))
              ((b2.y - cy) + (ov * 0.5) * ((b2.y - b1.y) / d)) := by rw [e1, e2]
        _ ≤ hypot (b2.x - cx) (b2.y - cy) +
              hypot ((ov * 0.5) * ((b2.x - b1.x) / d))
                ((ov * 0.5) * ((b2.y - b1.y) / d)) := hypot_triangle _ _ _ _
        _ = hypot (b2.x - cx) (b2.y - cy) + |ov * 0.5| * 1 := by
              rw [hypot_smul, hunit]
        _ ≤ hypot (b2.x - cx) (b2.y - cy) + (b1.radius + b2.radius) / 2 := by
              rw [abs_of_pos (by linarith : (0 : ℝ) < ov * 0.5), mul_one]
              linarith
  · injection hc with hp
    injection hp with hc1 hc2
    subst hc1
    subst hc2
    exact ⟨by linarith, by linarith, rfl, rfl⟩

theorem hypot_240 : hypot ((240 : ℝ) - 300) ((400 : ℝ) - 400) = 60 := by
  rw [show ((240 : ℝ) - 300) = -60 by norm_num, show ((400 : ℝ) - 400) = (0 : ℝ) by norm_num,
    hypot_axis, abs_neg, abs_of_nonneg (by norm_num : (0 : ℝ) ≤ 60)]

theorem hypot_360 : hypot ((360 : ℝ) - 300) ((400 : ℝ) - 400) = 60 := by
  rw [show ((360 : ℝ) - 300) = (60 : ℝ) by norm_num, show ((400 : ℝ) - 400) = (0 : ℝ) by norm_num,
    hypot_axis, abs_of_nonneg (by norm_num : (0 : ℝ) ≤ 60)]

/-- One iteration of the futbol 1.2 goal loop preserves the 290-containment
bound at the configured radius 30: a goal resets both balls to the centre
spots (distance 60 from the centre), and no goal leaves positions alone. -/
theorem goalStep12_bound (rng : ℕ → ℝ) (i : Bool) (s : State12)
    (hr1 : s.b1.radius = 30) (hr2 : s.b2.radius = 30)
    (hb1 : hypot (s.b1.x - 300) (s.b1.y - 400) + s.b1.radius ≤ 290)
    (hb2 : hypot (s.b2.x - 300) (s.b2.y - 400) + s.b2.radius ≤ 290) :
    (goalStep12 rng i s).b1.radius = 30 ∧ (goalStep12 rng i s).b2.radius = 30 ∧
    hypot ((goalStep12 rng i s).b1.x - 300) ((goalStep12 rng i s).b1.y - 400) +
      (goalStep12 rng i s).b1.radius ≤ 290 ∧
    hypot ((goalStep12 rng i s).b2.x - 300) ((goalStep12 rng i s).b2.y - 400) +
      (goalStep12 rng i s).b2.radius ≤ 290 := by
  cases i <;> simp only [goalStep12, cond_true, cond_false]
  · by_cases hg : goalCond12 s.goalAngle s.b2
    · rw [if_pos hg]
      dsimp only
      rw [hr1, hr2, hypot_240, hypot_360]
      norm_num
    · rw [if_neg hg]
      exact ⟨hr1, hr2, hb1, hb2⟩
  · by_cases hg : goalCond12 s.goalAngle s.b1
    · rw [if_pos hg]
      dsimp only
      rw [hr1, hr2, hypot_240, hypot_360]
      norm_num
    · rw [if_neg hg]
      exact ⟨hr1, hr2, hb1, hb2⟩

/-- C1 (amended): whenever the futbol 1.2 physics block completes a tick
without raising, every ball at the configured radius 30 ends the tick with
`distance to the arena centre + radius ≤ arenaRadius + (r1 + r2) / 2 = 290`:
the wall pass caps each ball at the wall, and the subsequent pairwise
separation can push a ball back out by at most half the radius sum — but not
by less than that in general, so the claim's small `ε` must be as large as
`(r1 + r2) / 2`. -/
theorem C1_tick_containment_amended (rng : ℕ → ℝ) (s s' : State12)
    (hr1 : s.b1.radius = 30) (hr2 : s.b2.radius = 30)
    (ht : tick12 rng s = some s') :
    hypot (s'.b1.x - 300) (s'.b1.y - 400) + s'.b1.radius ≤ 290 ∧
    hypot (s'.b2.x - 300) (s'.b2.y - 400) + s'.b2.radius ≤ 290 := by
  simp only [tick12] at ht
  set s0 : State12 := if s.goalRotating
    then { s with goalAngle := pymod (s.goalAngle + 0.015) (2 * Real.pi) }
    else s with hs0
  have hs0b1 : s0.b1 = s.b1 := by rw [hs0]; split_ifs <;> rfl
  have hs0b2 : s0.b2 = s.b2 := by rw [hs0]; split_ifs <;> rfl
  cases hw1 : collide_wall_v2 300 400 260 (move12 s0.b1) with
  | none => rw [hw1] at ht; simp at ht
  | some w1 =>
    rw [hw1] at ht
    dsimp only at ht
    cases hw2 : collide_wall_v2 300 400 260 (move12 s0.b2) with
    | none => rw [hw2] at ht; simp at ht
    | some w2 =>
      rw [hw2] at ht
      dsimp only at ht
      cases hcc : check_collision w1 w2 with
      | none => rw [hcc] at ht; simp at ht
      | some p =>
        obtain ⟨c1, c2⟩ := p
        rw [hcc] at ht
        dsimp only at ht
        injection ht with hts
        subst hts
        have hm1r : (move12 s0.b1).radius = 30 := by rw [hs0b1]; exact hr1
        have hm2r : (move12 s0.b2).radius = 30 := by rw [hs0b2]; exact hr2
        obtain ⟨hw1b, hw1r⟩ :=
          collide_wall_v2_bound 300 400 260 (move12 s0.b1) w1 (by rw [hm1r]; norm_num) hw1
        obtain ⟨hw2b, hw2r⟩ :=
          collide_wall_v2_bound 300 400 260 (move12 s0.b2) w2 (by rw [hm2r]; norm_num) hw2
        have hw1r30 : w1.radius = 30 := by rw [hw1r, hm1r]
        have hw2r30 : w2.radius = 30 := by rw [hw2r, hm2r]
        obtain ⟨hp1, hp2, hp1r, hp2r⟩ :=
          check_collision_bound 300 400 w1 w2 c1 c2 (by rw [hw1r30]; norm_num)
            (by rw [hw2r30]; norm_num) hcc
        rw [hw1r30, hw2r30] at hp1 hp2
        rw [hw1r30] at hw1b
        rw [hw2r30] at hw2b
        have hc1r30 : c1.radius = 30 := by rw [hp1r, hw1r30]
        have hc2r30 : c2.radius = 30 := by rw [hp2r, hw2r30]
        have hc1b : hypot (c1.x - 300) (c1.y - 400) + c1.radius ≤ 290 := by
          rw [hc1r30]
          linarith
        have hc2b : hypot (c2.x - 300) (c2.y - 400) + c2.radius ≤ 290 := by
          rw [hc2r30]
          linarith
        obtain ⟨hg1r1, hg1r2, hg1b1, hg1b2⟩ :=
          goalStep12_bound rng true { s0 with b1 := c1, b2 := c2 } hc1r30 hc2r30 hc1b hc2b
        obtain ⟨_, _, hfb1, hfb2⟩ :=
          goalStep12_bound rng false (goalStep12 rng true { s0 with b1 := c1, b2 := c2 })
            hg1r1 hg1r2 hg1b1 hg1b2
        exact ⟨hfb1, hfb2⟩

/-! ### A concrete futbol 1.2 tick that ends with a ball outside the arena -/

theorem hypot_eval (a b c : ℝ) (h1 : a = c) (h2 : b = 0) (h3 : 0 ≤ c) :
    hypot a b = c := by
  rw [h1, h2, hypot_axis, abs_of_nonneg h3]

theorem hypot_eval_neg (a b c : ℝ) (h1 : a = -c) (h2 : b = 0) (h3 : 0 ≤ c) :
    hypot a b = c := by
  rw [h1, h2, hypot_axis, abs_neg, abs_of_nonneg h3]

/-- The all-zeros pseudo-random stream. -/
def rngZ : ℕ → ℝ := fun _ => 0

/-- Pre-tick state: ball 1 about to reach the wall moving right on the
horizontal axis through the centre, ball 2 close behind it; the goal zone at
angle `pi` (the opposite side), rotation off. -/
noncomputable def s1In : State12 :=
  ⟨⟨524, 400, 6, 0, 30⟩, ⟨486, 400, -6, 0, 30⟩, Real.pi, false, 0, 0, 0⟩

/-- Post-tick state: the wall pass placed ball 1 exactly on the wall
(`dist = 230`), and the pairwise separation then pushed it 5 units outward
to `dist = 235`. -/
noncomputable def s1Out : State12 :=
  ⟨⟨535, 400, -6, 0, 30⟩, ⟨475, 400, -6, 0, 30⟩, Real.pi, false, 0, 0, 0⟩

theorem angularDiff_zero_pi : angularDiff 0 Real.pi = Real.pi := by
  have habs : |(0 : ℝ) - Real.pi| = Real.pi := by
    rw [abs_of_nonpos (by linarith [Real.pi_pos])]
    ring
  rw [angularDiff, habs, angLoop, if_neg (lt_irrefl Real.pi)]

theorem tick12_s1_eval : tick12 rngZ s1In = some s1Out := by
  have h230 : hypot ((530 : ℝ) - 300) ((400 : ℝ) - 400) = 230 :=
    hypot_eval _ _ _ (by norm_num) (by norm_num) (by norm_num)
  have h180 : hypot ((480 : ℝ) - 300) ((400 : ℝ) - 400) = 180 :=
    hypot_eval _ _ _ (by norm_num) (by norm_num) (by norm_num)
  have h50 : hypot ((480 : ℝ) - 530) ((400 : ℝ) - 400) = 50 :=
    hypot_eval_neg _ _ _ (by norm_num) (by norm_num) (by norm_num)
  have h235 : hypot ((535 : ℝ) - 300) ((400 : ℝ) - 400) = 235 :=
    hypot_eval _ _ _ (by norm_num) (by norm_num) (by norm_num)
  have h175 : hypot ((475 : ℝ) - 300) ((400 : ℝ) - 400) = 175 :=
    hypot_eval _ _ _ (by norm_num) (by norm_num) (by norm_num)
  have hm1 : move12 ⟨524, 400, 6, 0, 30⟩ = (⟨530, 400, 6, 0, 30⟩ : Ball) := by
    simp only [move12]
    norm_num
  have hm2 : move12 ⟨486, 400, -6, 0, 30⟩ = (⟨480, 400, -6, 0, 30⟩ : Ball) := by
    simp only [move12]
    norm_num
  have hw1 : collide_wall_v2 300 400 260 (⟨530, 400, 6, 0, 30⟩ : Ball) =
      some ⟨530, 400, -6, 0, 30⟩ := by
    simp only [collide_wall_v2]
    rw [h230, if_pos (by norm_num : (260 : ℝ) ≤ 230 + 30),
      if_neg (by norm_num : ¬(230 : ℝ) = 0)]
    norm_num
  have hw2 : collide_wall_v2 300 400 260 (⟨480, 400, -6, 0, 30⟩ : Ball) =
      some ⟨480, 400, -6, 0, 30⟩ := by
    simp only [collide_wall_v2]
    rw [h180, if_neg (by norm_num : ¬((260 : ℝ) ≤ 180 + 30))]
  have hcc : check_collision ⟨530, 400, -6, 0, 30⟩ ⟨480, 400, -6, 0, 30⟩ =
      some (⟨535, 400, -6, 0, 30⟩, ⟨475, 400, -6, 0, 30⟩) := by
    simp only [check_collision]
    rw [h50, if_pos (by norm_num : (50 : ℝ) < 30 + 30),
      if_neg (by norm_num : ¬(50 : ℝ) = 0)]
    rw [if_neg (by norm_num)]
    norm_num
  have ha1 : atan2 ((400 : ℝ) - 400) ((535 : ℝ) - 300) = 0 := by
    rw [show ((400 : ℝ) - 400) = (0 : ℝ) by norm_num,
      show ((535 : ℝ) - 300) = (235 : ℝ) by norm_num]
    exact atan2_zero_pos 235 (by norm_num)
  have hg1 : ¬ goalCond12 Real.pi (⟨535, 400, -6, 0, 30⟩ : Ball) := by
    intro hg
    obtain ⟨-, h2⟩ := hg
    dsimp only at h2
    rw [ha1, angularDiff_zero_pi] at h2
    have := Real.pi_gt_three
    norm_num at h2
    linarith
  have hg2 : ¬ goalCond12 Real.pi (⟨475, 400, -6, 0, 30⟩ : Ball) := by
    intro hg
    obtain ⟨h1, -⟩ := hg
    dsimp only at h1
    rw [h175] at h1
    norm_num at h1
  simp only [tick12, s1In, Bool.false_eq_true, if_false]
  rw [hm1, hm2, hw1, hw2]
  dsimp only
  rw [hcc]
  dsimp only
  simp only [goalLoop12, goalStep12, cond_true, cond_false]
  rw [if_neg hg1, if_neg hg2]
  rfl

/-- C1 counterexample: from the concrete state `s1In` the futbol 1.2 physics
block completes the full tick (move, wall collision, pairwise resolution,
goal handling) without error, yet leaves ball 1 with
`distance to centre + radius = 265 = arenaRadius + 5`: the pairwise
separation runs after the wall pass and pushes the ball 5 units outside, so
containment within `arenaRadius + ε` fails for every `ε < 5`. -/
theorem C1_tick_containment_cex :
    tick12 rngZ s1In = some s1Out ∧
    hypot (s1Out.b1.x - 300) (s1Out.b1.y - 400) + s1Out.b1.radius = 265 := by
  refine ⟨tick12_s1_eval, ?_⟩
  have h235 : hypot ((535 : ℝ) - 300) ((400 : ℝ) - 400) = 235 :=
    hypot_eval _ _ _ (by norm_num) (by norm_num) (by norm_num)
  show hypot ((535 : ℝ) - 300) ((400 : ℝ) - 400) + (30 : ℝ) = 265
  rw [h235]
  norm_num

/-- C1 witness: the amended tick bound applied at the concrete tick above —
the escaped ball still obeys the corrected bound
`arenaRadius + (r1 + r2) / 2 = 290`. -/
theorem C1_tick_containment_amended_witness :
    hypot (s1Out.b1.x - 300) (s1Out.b1.y - 400) + s1Out.b1.radius ≤ 290 ∧
    hypot (s1Out.b2.x - 300) (s1Out.b2.y - 400) + s1Out.b2.radius ≤ 290 :=
  C1_tick_containment_amended rngZ s1In s1Out rfl rfl tick12_s1_eval

/-! ## futbol 1.4 : goal-detection loop (lines 1308-1347)

Constants: centre `(300, 400)`, `ARENA_RADIUS = 260`, `BALL_RADIUS = 40`,
`GOAL_WIDTH_RADIANS = 0.30`; only the scorer is respawned to the centre and
both balls get fresh velocity draws; the loop has no break. -/

/-- The state touched by futbol 1.4's goal loop; goal events store the
`(sim_minute, display_added_time)` data of the recorded time mark. -/
structure State14 where
  b1 : Ball
  b2 : Ball
  goalAngle : ℝ
  goalRotating : Bool
  gollTimer : ℕ
  score1 : ℕ
  score2 : ℕ
  events1 : List (ℕ × Bool)
  events2 : List (ℕ × Bool)
  simMinute : ℕ
  displayAdded : Bool
  rk : ℕ

/-- The goal test of futbol 1.4 (lines 1310-1320): near the wall
(`dist > ARENA_RADIUS - radius - 10`) and, after reducing both angles modulo
`2*pi`, within half the goal width of the goal angle. -/
noncomputable def goalCond14 (goalAngle : ℝ) (b : Ball) : Prop :=
  260 - b.radius - 10 < hypot (b.x - 300) (b.y - 400) ∧
  angularDiff (pymod (atan2 (b.y - 400) (b.x - 300)) (2 * Real.pi))
    (pymod goalAngle (2 * Real.pi)) < 0.30 / 2

/-- One iteration of futbol 1.4's goal loop body (lines 1309-1347) for ball 1
(`i = true`) or ball 2 (`i = false`): on a goal the scorer's score and event
list grow and only the scorer returns to the centre; the GOLLL timer is set,
rotation is enabled, and both balls draw fresh velocities. -/
noncomputable def goalStep14 (rng : ℕ → ℝ) (i : Bool) (s : State14) : State14 :=
  let b := cond i s.b1 s.b2
  if goalCond14 s.goalAngle b then
    let tm : ℕ × Bool := (s.simMinute, s.displayAdded)
    let s1 : State14 := cond i
      ({ s with score1 := s.score1 + 1, events1 := s.events1 ++ [tm],
                b1 := { s.b1 with x := 300, y := 400 } })
      ({ s with score2 := s.score2 + 1, events2 := s.events2 ++ [tm],
                b2 := { s.b2 with x := 300, y := 400 } })
    { s1 with
      gollTimer := 90,
      goalRotating := if 1 ≤ s1.score1 + s1.score2 then true else s1.goalRotating,
      b1 := { s1.b1 with vx := rng s.rk, vy := rng (s.rk + 1) },
      b2 := { s1.b2 with vx := rng (s.rk + 2), vy := rng (s.rk + 3) },
      rk := s.rk + 4 }
  else s

/-- futbol 1.4's goal loop `for b in [ball1, ball2]`: no break — ball 2 is
checked even when ball 1 has just scored. -/
noncomputable def goalLoop14 (rng : ℕ → ℝ) (s : State14) : State14 :=
  goalStep14 rng false (goalStep14 rng true s)

theorem angularDiff_zero_zero : angularDiff 0 0 = 0 := by
  have habs : |(0 : ℝ) - 0| = 0 := by norm_num
  rw [angularDiff, habs, angLoop, if_neg (by linarith [Real.pi_pos] : ¬ Real.pi < 0)]

/-- Both balls parked on the wall at angle 0, the goal zone at angle 0. -/
noncomputable def s4In : State14 :=
  ⟨⟨535, 400, 0, 0, 40⟩, ⟨530, 400, 0, 0, 40⟩, 0, false, 0, 0, 0, [], [], 10, false, 0⟩

/-- State after ball 1's goal in `s4In`. -/
noncomputable def s4Mid : State14 :=
  ⟨⟨300, 400, 0, 0, 40⟩, ⟨530, 400, 0, 0, 40⟩, 0, true, 90, 1, 0,
    [(10, false)], [], 10, false, 4⟩

/-- State after both balls scored in the same futbol 1.4 tick. -/
noncomputable def s4Out : State14 :=
  ⟨⟨300, 400, 0, 0, 40⟩, ⟨300, 400, 0, 0, 40⟩, 0, true, 90, 1, 1,
    [(10, false)], [(10, false)], 10, false, 8⟩

/-- C4 counterexample: with both bodies simultaneously inside the goal zone,
one pass of futbol 1.4's goal-detection loop records a goal for each of them
— two `recordGoal`-equivalent events in a single tick, not one: the loop has
no break, and respawning only the scorer leaves the second body in the
zone. -/
theorem C4_one_goal_cex :
    goalLoop14 rngZ s4In = s4Out ∧
    s4Out.score1 + s4Out.score2 ≠ s4In.score1 + s4In.score2 + 1 := by
  constructor
  · have h235 : hypot ((535 : ℝ) - 300) ((400 : ℝ) - 400) = 235 :=
      hypot_eval _ _ _ (by norm_num) (by norm_num) (by norm_num)
    have h230 : hypot ((530 : ℝ) - 300) ((400 : ℝ) - 400) = 230 :=
      hypot_eval _ _ _ (by norm_num) (by norm_num) (by norm_num)
    have ha1 : atan2 ((400 : ℝ) - 400) ((535 : ℝ) - 300) = 0 := by
      rw [show ((400 : ℝ) - 400) = (0 : ℝ) by norm_num,
        show ((535 : ℝ) - 300) = (235 : ℝ) by norm_num]
      exact atan2_zero_pos 235 (by norm_num)
    have ha2 : atan2 ((400 : ℝ) - 400) ((530 : ℝ) - 300) = 0 := by
      rw [show ((400 : ℝ) - 400) = (0 : ℝ) by norm_num,
        show ((530 : ℝ) - 300) = (230 : ℝ) by norm_num]
      exact atan2_zero_pos 230 (by norm_num)
    have hc1 : goalCond14 0 (⟨535, 400, 0, 0, 40⟩ : Ball) := by
      constructor
      · dsimp only
        rw [h235]
        norm_num
      · dsimp only
        rw [ha1, pymod_zero_left, angularDiff_zero_zero]
        norm_num
    have hc2 : goalCond14 0 (⟨530, 400, 0, 0, 40⟩ : Ball) := by
      constructor
      · dsimp only
        rw [h230]
        norm_num
      · dsimp only
        rw [ha2, pymod_zero_left, angularDiff_zero_zero]
        norm_num
    have hstep1 : goalStep14 rngZ true s4In = s4Mid := by
      simp only [goalStep14, cond_true, s4In]
      rw [if_pos hc1]
      rfl
    have hstep2 : goalStep14 rngZ false s4Mid = s4Out := by
      simp only [goalStep14, cond_false, s4Mid]
      rw [if_pos hc2]
      rfl
    rw [goalLoop14, hstep1, hstep2]
  · rw [s4Out, s4In]
    norm_num

/-- C4 (amended): futbol 1.2's goal loop does record at most one goal per
tick for bodies of the configured size (radius at most 195): when the first
body scores, the reset moves both bodies to the centre spots, and a body at
distance 60 from the centre cannot pass the near-wall test, so the second
check never fires; the futbol 1.4 loop lacks this protection and can record
two goals in one tick. -/
theorem C4_one_goal_amended (rng : ℕ → ℝ) (s : State12)
    (hr2 : s.b2.radius ≤ 195) :
    (goalLoop12 rng s).score1 + (goalLoop12 rng s).score2 ≤
      s.score1 + s.score2 + 1 := by
  simp only [goalLoop12]
  by_cases hg1 : goalCond12 s.goalAngle s.b1
  · have hnc : ¬ goalCond12 (Real.pi / 2)
        (⟨360, 400, rng (s.rk + 2), rng (s.rk + 3), s.b2.radius⟩ : Ball) := by
      intro hc
      obtain ⟨hd, -⟩ := hc
      dsimp only at hd
      rw [hypot_360] at hd
      linarith
    have ht : goalStep12 rng true s =
        ⟨⟨240, 400, rng s.rk, rng (s.rk + 1), s.b1.radius⟩,
         ⟨360, 400, rng (s.rk + 2), rng (s.rk + 3), s.b2.radius⟩,
         Real.pi / 2,
         if 1 ≤ s.score1 + 1 + s.score2 then true else s.goalRotating,
         s.score1 + 1, s.score2, s.rk + 4⟩ := by
      simp only [goalStep12, cond_true]
      rw [if_pos hg1]
    rw [ht]
    simp only [goalStep12, cond_false]
    rw [if_neg hnc]
    dsimp only
    omega
  · have ht : goalStep12 rng true s = s := by
      simp only [goalStep12, cond_true]
      rw [if_neg hg1]
    rw [ht]
    simp only [goalStep12, cond_false]
    by_cases hg2 : goalCond12 s.goalAngle s.b2
    · rw [if_pos hg2]
      dsimp only
      omega
    · rw [if_neg hg2]
      omega

/-- A futbol 1.2 state with both balls in the goal zone at the configured
radius 30. -/
noncomputable def s4W : State12 :=
  ⟨⟨535, 400, 0, 0, 30⟩, ⟨532, 400, 0, 0, 30⟩, 0, false, 0, 0, 0⟩

/-- C4 witness: the amended bound applied at a concrete futbol 1.2 state with
both balls simultaneously in the goal zone — still at most one goal is
recorded in the tick. -/
theorem C4_one_goal_amended_witness :
    (goalLoop12 rngZ s4W).score1 + (goalLoop12 rngZ s4W).score2 ≤
      s4W.score1 + s4W.score2 + 1 :=
  C4_one_goal_amended rngZ s4W (by rw [s4W]; norm_num)
